import Mathlib

/-!
Shallow embedding of the per-timestep task-evaluation pipeline of the
SafeRLAeroEnv repository, covering:

* the rejoin-task status processors of
  `src/saferl/aerospace/tasks/rejoin/processors.py`
  (`DubinsInRejoinPrev`, `DubinsRejoinTime`, `DubinsTimeElapsed`,
  `DubinsFailureStatus`, `DubinsSuccessStatus`),
* the rejoin-task reward processors of the same file
  (`RejoinRewardProcessor`, `RejoinFirstTimeRewardProcessor`,
  `RejoinDistanceChangeRewardProcessor`),
* the Dubins observation processor of the same file
  (`DubinsObservationProcessor`, including `vec2magnorm`),
* the docking-environment processors of
  `src/rejoin/rejoin_rta/environments/docking_env.py`
  (`DockingRewardProcessor.gen_reward`,
  `DockingConstraintProcessor.check_constraints`).

Scalars produced by the geometry and dynamics collaborators (distances,
elapsed times, containment booleans) enter the embedding as explicit
arguments, exactly as the processors read them from the status mapping or
from `distance(...)` / `region.contains(...)`.  Reward and status
arithmetic is embedded over `ℚ`; the observation pipeline, which uses
`np.linalg.norm` (a real square root), is embedded over `ℝ`.
-/

/-- A categorical failure code.  In the Python source a failure status is
either the literal `False` or one of the strings `'crash'`, `'timeout'`,
`'distance'`; we embed it as `Option FailureCode` with `none` standing for
`False`. -/
inductive FailureCode where
  | crash
  | timeout
  | distance
  deriving DecidableEq, Repr

/-! ### DubinsFailureStatus (processors.py lines 343-373) -/

/-- Configuration of `DubinsFailureStatus`: `safety_margin['aircraft']`,
`timeout`, `max_goal_distance`. -/
structure DubinsFailureStatus where
  safety_margin_aircraft : ℚ
  timeout : ℚ
  max_goal_dist : ℚ
  deriving DecidableEq, Repr

/-- `DubinsFailureStatus._process`: the internal state after `_increment`
holds the upstream `lead_distance` and `time_elapsed` status values; the
chain `if lead_distance < safety_margin['aircraft'] ... elif time_elapsed >
timeout ... elif lead_distance >= max_goal_dist ...` returns the first
matching failure code, else `False`. -/
def DubinsFailureStatus.process (cfg : DubinsFailureStatus)
    (lead_distance time_elapsed : ℚ) : Option FailureCode :=
  if lead_distance < cfg.safety_margin_aircraft then some .crash
  else if time_elapsed > cfg.timeout then some .timeout
  else if lead_distance ≥ cfg.max_goal_dist then some .distance
  else none

/-! ### DubinsSuccessStatus (processors.py lines 376-396) -/

/-- `DubinsSuccessStatus._process`: success exactly when the upstream
`rejoin_time` status value exceeds the configured `success_time`. -/
def DubinsSuccessStatus.process (success_time rejoin_time : ℚ) : Bool :=
  rejoin_time > success_time

/-! ### DubinsRejoinTime (processors.py lines 284-304) -/

/-- Internal state of `DubinsRejoinTime`: the accumulated `rejoin_time`
and the last observed containment status `in_rejoin`. -/
structure DubinsRejoinTime where
  rejoin_time : ℚ
  in_rejoin : Bool
  deriving DecidableEq, Repr

/-- `DubinsRejoinTime.reset`: `rejoin_time = 0`, `in_rejoin` read from the
already-built status mapping. -/
def DubinsRejoinTime.reset (status_in_rejoin : Bool) : DubinsRejoinTime :=
  { rejoin_time := 0, in_rejoin := status_in_rejoin }

/-- `DubinsRejoinTime._increment`: read the containment status; while it
holds add `step_size` to `rejoin_time`, otherwise hard-reset it to `0`. -/
def DubinsRejoinTime.increment (s : DubinsRejoinTime)
    (step_size : ℚ) (status_in_rejoin : Bool) : DubinsRejoinTime :=
  let in_rejoin := status_in_rejoin
  if in_rejoin then
    { in_rejoin := in_rejoin, rejoin_time := s.rejoin_time + step_size }
  else
    { in_rejoin := in_rejoin, rejoin_time := 0 }

/-- `DubinsRejoinTime._process`: return the accumulated time. -/
def DubinsRejoinTime.process (s : DubinsRejoinTime) : ℚ :=
  s.rejoin_time

/-! ### DubinsInRejoinPrev (processors.py lines 264-281) -/

/-- Internal state of `DubinsInRejoinPrev`: previous and current
containment status. -/
structure DubinsInRejoinPrev where
  in_rejoin_prev : Bool
  in_rejoin_current : Bool
  deriving DecidableEq, Repr

/-- `DubinsInRejoinPrev.reset`: previous is `False`, current read from the
already-computed containment status. -/
def DubinsInRejoinPrev.reset (status_in_rejoin : Bool) : DubinsInRejoinPrev :=
  { in_rejoin_prev := false, in_rejoin_current := status_in_rejoin }

/-- `DubinsInRejoinPrev._increment`: shift current into previous, then read
the new current containment status. -/
def DubinsInRejoinPrev.increment (s : DubinsInRejoinPrev)
    (status_in_rejoin : Bool) : DubinsInRejoinPrev :=
  { in_rejoin_prev := s.in_rejoin_current, in_rejoin_current := status_in_rejoin }

/-- `DubinsInRejoinPrev._process`: return the previous containment status. -/
def DubinsInRejoinPrev.process (s : DubinsInRejoinPrev) : Bool :=
  s.in_rejoin_prev

/-! ### DockingConstraintProcessor (docking_env.py lines 225-268) -/

/-- The status record built by
`DockingConstraintProcessor.check_constraints`. -/
structure DockingStatusDict where
  success : Bool
  failure : Option FailureCode
  in_docking : Bool
  time_elapsed : ℚ
  deriving DecidableEq, Repr

/-- `DockingConstraintProcessor.check_constraints`: `in_docking` is the
containment predicate's value (geometry collaborator), `dock_distance` the
deputy/docking-region distance; failure is `'timeout'` if
`time_elapsed > timeout`, else `'distance'` if
`dock_distance >= max_goal_distance`, else `False`; success is exactly
`in_docking`.  Success and failure are computed independently. -/
def DockingConstraintProcessor.check_constraints
    (timeout max_goal_distance time_elapsed dock_distance : ℚ)
    (in_docking : Bool) : DockingStatusDict :=
  let failure : Option FailureCode :=
    if time_elapsed > timeout then some .timeout
    else if dock_distance ≥ max_goal_distance then some .distance
    else none
  let success : Bool := in_docking
  { success := success, failure := failure,
    in_docking := in_docking, time_elapsed := time_elapsed }

/-! ### RejoinRewardProcessor (processors.py lines 141-178) -/

/-- Internal state of `RejoinRewardProcessor`.  `reward` is the configured
weight (from the base `RewardProcessor` config); `total_value` is the
running total of the processor's accumulated reward across the episode. -/
structure RejoinRewardProcessor where
  reward : ℚ
  step_size : ℚ
  in_rejoin_for_step : Bool
  left_rejoin : Bool
  total_value : ℚ
  deriving DecidableEq, Repr

/-- `RejoinRewardProcessor.reset`: `step_size = 0`, both transition flags
cleared.  The base-class part (`total_value = 0`) is modelled from the
spec: the base `RewardProcessor` class is not under `src/`, and the spec
states that reset re-initializes every processor's internal state,
including the per-episode reward accumulator. -/
def RejoinRewardProcessor.reset (w : ℚ) : RejoinRewardProcessor :=
  { reward := w, step_size := 0, in_rejoin_for_step := false,
    left_rejoin := false, total_value := 0 }

/-- `RejoinRewardProcessor._increment`: clear both flags, record
`step_size`, then set `in_rejoin_for_step` when the containment status and
the previous-step containment status are both true, and `left_rejoin` when
the region was occupied at the previous step but is not now. -/
def RejoinRewardProcessor.increment (s : RejoinRewardProcessor)
    (step_size : ℚ) (in_rejoin in_rejoin_prev : Bool) : RejoinRewardProcessor :=
  let s0 := { s with left_rejoin := false, in_rejoin_for_step := false,
                     step_size := step_size }
  if in_rejoin && in_rejoin_prev then
    { s0 with in_rejoin_for_step := true }
  else if !in_rejoin && in_rejoin_prev then
    { s0 with left_rejoin := true }
  else s0

/-- `RejoinRewardProcessor._process`: `reward * step_size` while in rejoin
for the whole step; `-1 * total_value` on the step the region was left;
`0` otherwise. -/
def RejoinRewardProcessor.process (s : RejoinRewardProcessor) : ℚ :=
  if s.in_rejoin_for_step then s.reward * s.step_size
  else if s.left_rejoin then -1 * s.total_value
  else 0

/-- Modelled from the spec: one pipeline evaluation of
`RejoinRewardProcessor` within a step.  The pipeline/base-class code that
adds each step's reward into the processor's running total is not under
`src/`; the spec states that `_increment` then `_process` run and that the
pipeline then adds the returned step reward to the running total.  Returns
the step reward together with the updated processor state. -/
def RejoinRewardProcessor.pipelineStep (s : RejoinRewardProcessor)
    (step_size : ℚ) (in_rejoin in_rejoin_prev : Bool) :
    ℚ × RejoinRewardProcessor :=
  let s1 := s.increment step_size in_rejoin in_rejoin_prev
  let step_reward := s1.process
  (step_reward, { s1 with total_value := s1.total_value + step_reward })

/-! ### RejoinFirstTimeRewardProcessor (processors.py lines 181-211) -/

/-- Internal state of `RejoinFirstTimeRewardProcessor`.  `reward` is the
configured bonus; `in_rejoin` is stored by `reset` and never read
afterwards, kept for fidelity to the source. -/
structure RejoinFirstTimeRewardProcessor where
  reward : ℚ
  rejoin_first_time : Bool
  rejoin_first_time_applied : Bool
  in_rejoin : Bool
  deriving DecidableEq, Repr

/-- `RejoinFirstTimeRewardProcessor.reset`: both flags cleared, `in_rejoin`
read from the already-built status mapping. -/
def RejoinFirstTimeRewardProcessor.reset (w : ℚ) (status_in_rejoin : Bool) :
    RejoinFirstTimeRewardProcessor :=
  { reward := w, rejoin_first_time := false,
    rejoin_first_time_applied := false, in_rejoin := status_in_rejoin }

/-- `RejoinFirstTimeRewardProcessor._increment`: if the first-time flag is
set, it has been applied, so latch `rejoin_first_time_applied` and clear
the flag; then, if the containment status is true and the bonus has not
been applied, set the first-time flag. -/
def RejoinFirstTimeRewardProcessor.increment
    (s : RejoinFirstTimeRewardProcessor) (status_in_rejoin : Bool) :
    RejoinFirstTimeRewardProcessor :=
  let s1 :=
    if s.rejoin_first_time then
      { s with rejoin_first_time_applied := true, rejoin_first_time := false }
    else s
  if status_in_rejoin && !s1.rejoin_first_time_applied then
    { s1 with rejoin_first_time := true }
  else s1

/-- `RejoinFirstTimeRewardProcessor._process`: the configured reward on the
step the first-time flag is set, `0` otherwise. -/
def RejoinFirstTimeRewardProcessor.process
    (s : RejoinFirstTimeRewardProcessor) : ℚ :=
  if s.rejoin_first_time then s.reward else 0

/-- Episode run of `RejoinFirstTimeRewardProcessor`: apply
`_increment`-then-`_process` to each containment status of the trace in
order, collecting the step rewards. -/
def RejoinFirstTimeRewardProcessor.run
    (s : RejoinFirstTimeRewardProcessor) : List Bool → List ℚ
  | [] => []
  | c :: rest =>
    let s1 := s.increment c
    s1.process :: s1.run rest

/-- The first-time bonus behaviour as the spec words it: the configured
reward is emitted on the first step whose containment status is true, and
every other step of the episode emits `0`. -/
def firstTimeBonusSpec (w : ℚ) : List Bool → List ℚ
  | [] => []
  | true :: rest => w :: rest.map (fun _ => 0)
  | false :: rest => 0 :: firstTimeBonusSpec w rest

/-! ### RejoinDistanceChangeRewardProcessor (processors.py lines 214-241) -/

/-- Internal state of `RejoinDistanceChangeRewardProcessor`.  `reward` is
the configured weight; the two distances are the tracked
wingman/rejoin-region distances after the previous and the current step. -/
structure RejoinDistanceChangeRewardProcessor where
  reward : ℚ
  prev_distance : ℚ
  cur_distance : ℚ
  in_rejoin : Bool
  deriving DecidableEq, Repr

/-- `RejoinDistanceChangeRewardProcessor.reset`: both distances start at
the current wingman/rejoin-region distance, `in_rejoin` from the status
mapping. -/
def RejoinDistanceChangeRewardProcessor.reset (w dist : ℚ)
    (status_in_rejoin : Bool) : RejoinDistanceChangeRewardProcessor :=
  { reward := w, prev_distance := dist, cur_distance := dist,
    in_rejoin := status_in_rejoin }

/-- `RejoinDistanceChangeRewardProcessor._increment`: shift the current
distance into the previous one, read the new distance from the geometry
collaborator, and read the containment status. -/
def RejoinDistanceChangeRewardProcessor.increment
    (s : RejoinDistanceChangeRewardProcessor) (dist : ℚ)
    (status_in_rejoin : Bool) : RejoinDistanceChangeRewardProcessor :=
  { s with prev_distance := s.cur_distance, cur_distance := dist,
           in_rejoin := status_in_rejoin }

/-- `RejoinDistanceChangeRewardProcessor._process`: when the containment
status is false the step reward is `(cur_distance - prev_distance) *
reward`; when it is true the step reward stays `0`. -/
def RejoinDistanceChangeRewardProcessor.process
    (s : RejoinDistanceChangeRewardProcessor) : ℚ :=
  let distance_change := s.cur_distance - s.prev_distance
  if !s.in_rejoin then distance_change * s.reward else 0

/-! ### DockingRewardProcessor (docking_env.py lines 93-151) -/

/-- Configuration of `DockingRewardProcessor`: `time_decay`, `dist_change`,
the per-failure-code terminal values, and the success value. -/
structure DockingRewardConfig where
  time_decay : ℚ
  dist_change : ℚ
  failure : FailureCode → ℚ
  success : ℚ

/-- Internal state of `DockingRewardProcessor`: the previous
deputy/docking-region distance, the most recent step reward, the running
total, and the per-component running totals. -/
structure DockingRewardProcessor where
  prev_distance : ℚ
  step_reward : ℚ
  total_reward : ℚ
  component_time : ℚ
  component_distance_change : ℚ
  component_success : ℚ
  component_failure : ℚ
  deriving DecidableEq, Repr

/-- `DockingRewardProcessor.reset`: the previous distance starts at the
current deputy/docking-region distance; every total starts at `0`. -/
def DockingRewardProcessor.reset (dist : ℚ) : DockingRewardProcessor :=
  { prev_distance := dist, step_reward := 0, total_reward := 0,
    component_time := 0, component_distance_change := 0,
    component_success := 0, component_failure := 0 }

/-- One step's inputs to `DockingRewardProcessor.gen_reward`: the current
deputy/docking-region distance (geometry collaborator) and the step's
`failure`/`success` status values. -/
structure DockingStepInput where
  cur_distance : ℚ
  failure : Option FailureCode
  success : Bool
  deriving DecidableEq, Repr

/-- `DockingRewardProcessor.gen_reward`: the time component is
`config['time_decay']`; the distance-change component is
`(cur_distance - prev_distance) * config['dist_change']` (and
`prev_distance` is advanced); the failure component is the configured
value for the step's failure code when failure is set, otherwise the
success component is `config['success']` when success is set.  The step
reward is the sum of the components; it is added to the running total and
each component is added to its component total.  Returns the step reward
and the updated state. -/
def DockingRewardProcessor.gen_reward (cfg : DockingRewardConfig)
    (s : DockingRewardProcessor) (input : DockingStepInput) :
    ℚ × DockingRewardProcessor :=
  let time_reward := cfg.time_decay
  let dist_change := input.cur_distance - s.prev_distance
  let distance_change_reward := dist_change * cfg.dist_change
  let failure_reward := match input.failure with
    | some f => cfg.failure f
    | none => 0
  let success_reward := match input.failure with
    | some _ => 0
    | none => if input.success then cfg.success else 0
  let reward := time_reward + distance_change_reward + success_reward +
    failure_reward
  (reward,
    { prev_distance := input.cur_distance,
      step_reward := reward,
      total_reward := s.total_reward + reward,
      component_time := s.component_time + time_reward,
      component_distance_change :=
        s.component_distance_change + distance_change_reward,
      component_success := s.component_success + success_reward,
      component_failure := s.component_failure + failure_reward })

/-- Episode run of `DockingRewardProcessor`: fold `gen_reward` over a
sequence of step inputs, keeping the final state. -/
def DockingRewardProcessor.run (cfg : DockingRewardConfig)
    (s : DockingRewardProcessor) : List DockingStepInput →
    DockingRewardProcessor
  | [] => s
  | input :: rest =>
    DockingRewardProcessor.run cfg (DockingRewardProcessor.gen_reward cfg s input).2 rest

/-! ### DubinsObservationProcessor (processors.py lines 11-70) -/

/-- The two observation encoding modes of `DubinsObservationProcessor`. -/
inductive DubinsObsMode where
  | rect
  | magnorm
  deriving DecidableEq, Repr

/-- `obs_norm_const`: the fixed per-component normalization constants, per
mode (8 components in `rect` mode, 12 in `magnorm` mode). -/
def obs_norm_const : DubinsObsMode → List ℝ
  | .rect => [10000, 10000, 10000, 10000, 100, 100, 100, 100]
  | .magnorm => [10000, 1, 1, 10000, 1, 1, 100, 1, 1, 100, 1, 1]

/-- `np.linalg.norm` of a 2-vector: the Euclidean norm, embedded exactly
over the reals. -/
noncomputable def vecNorm (v : Fin 2 → ℝ) : ℝ :=
  Real.sqrt (v 0 ^ 2 + v 1 ^ 2)

/-- `DubinsObservationProcessor.vec2magnorm`: replace a 2-vector by
`np.concatenate(([norm], vec / norm))`, i.e. its magnitude followed by its
componentwise division by the magnitude.  At a zero input vector the
source's `vec / norm` divides by zero (NaN components); that error path is
kept out of this function's domain of use — `encodeVec` below guards it
with `none`, and the round-trip result is stated for nonzero vectors
only, where real division coincides with the source's. -/
noncomputable def vec2magnorm (v : Fin 2 → ℝ) : Fin 3 → ℝ :=
  ![vecNorm v, v 0 / vecNorm v, v 1 / vecNorm v]

/-- The per-vector encoding used when assembling the observation: the raw
components in `rect` mode, the `vec2magnorm` components in `magnorm`
mode.  In `magnorm` mode a zero vector makes the source divide by zero —
`vec / norm` with `norm = 0` yields NaN components — so that evaluation
has no real-number value; the error path is modelled as `none`. -/
noncomputable def encodeVec (mode : DubinsObsMode) (v : Fin 2 → ℝ) :
    Option (List ℝ) :=
  match mode with
  | .rect => some [v 0, v 1]
  | .magnorm =>
    if vecNorm v = 0 then none
    else some [vec2magnorm v 0, vec2magnorm v 1, vec2magnorm v 2]

/-- `DubinsObservationProcessor._process`: form the relative position
vectors `lead - wingman` and `rejoin_region - wingman` and take the two
velocities; apply the reference rotation (identity in the world frame, the
wingman orientation's inverse in `wingman` reference mode — the rotation
itself belongs to the scipy geometry collaborator and enters here as a
function argument) to all four vectors; in `magnorm` mode re-encode each
with `vec2magnorm`; concatenate; divide componentwise by
`obs_norm_const`; clip to `[-1, 1]` (`np.clip(obs, -1, 1)`).  When any
`magnorm` encoding hits the zero-vector division (the source then carries
NaN components through divide and clip), the whole evaluation is the
error path `none`. -/
noncomputable def DubinsObservationProcessor.process (mode : DubinsObsMode)
    (reference_rotation : (Fin 2 → ℝ) → (Fin 2 → ℝ))
    (lead_pos wingman_pos rejoin_region_pos wingman_vel lead_vel :
      Fin 2 → ℝ) : Option (List ℝ) := do
  let wingman_lead_r ← encodeVec mode
    (reference_rotation (lead_pos - wingman_pos))
  let wingman_rejoin_r ← encodeVec mode
    (reference_rotation (rejoin_region_pos - wingman_pos))
  let wv ← encodeVec mode (reference_rotation wingman_vel)
  let lv ← encodeVec mode (reference_rotation lead_vel)
  let obs := wingman_lead_r ++ wingman_rejoin_r ++ wv ++ lv
  pure ((obs.zip (obs_norm_const mode)).map
    (fun p => min (max (p.1 / p.2) (-1)) 1))

/-! ## Theorems -/

/-- C2: `DubinsFailureStatus._process` resolves simultaneously violated
thresholds in the fixed declared priority order — `'crash'` when the lead
distance is below the aircraft safety margin, otherwise `'timeout'` when
the elapsed time is above the timeout, otherwise `'distance'` when the
lead distance is at or above the maximum goal distance, otherwise `False`
— and with thresholds crash 10, timeout 500, max goal distance 50000, a
state with lead distance 9 and elapsed time 300 yields `'crash'`. -/
theorem DubinsFailureStatus.process_priority (cfg : DubinsFailureStatus)
    (lead_distance time_elapsed : ℚ) :
    (lead_distance < cfg.safety_margin_aircraft →
      cfg.process lead_distance time_elapsed = some .crash) ∧
    (¬ lead_distance < cfg.safety_margin_aircraft →
      time_elapsed > cfg.timeout →
      cfg.process lead_distance time_elapsed = some .timeout) ∧
    (¬ lead_distance < cfg.safety_margin_aircraft →
      ¬ time_elapsed > cfg.timeout → lead_distance ≥ cfg.max_goal_dist →
      cfg.process lead_distance time_elapsed = some .distance) ∧
    (¬ lead_distance < cfg.safety_margin_aircraft →
      ¬ time_elapsed > cfg.timeout → ¬ lead_distance ≥ cfg.max_goal_dist →
      cfg.process lead_distance time_elapsed = none) ∧
    DubinsFailureStatus.process ⟨10, 500, 50000⟩ 9 300 = some .crash := by
  refine ⟨?_, ?_, ?_, ?_, by decide⟩ <;>
    intros <;> simp [DubinsFailureStatus.process, *]

/-- Witness for C2: with the thresholds of the claim, a state violating
both the timeout and the max-goal-distance thresholds simultaneously
(lead distance 60000, elapsed time 600) resolves to the earlier-declared
code `'timeout'`. -/
theorem DubinsFailureStatus.process_priority_witness :
    DubinsFailureStatus.process ⟨10, 500, 50000⟩ 60000 600 = some .timeout := by
  have h := DubinsFailureStatus.process_priority ⟨10, 500, 50000⟩ 60000 600
  exact h.2.1 (by norm_num) (by norm_num)

/-- C7: `DubinsRejoinTime` accumulates elapsed time while containment
holds — after an `_increment` with containment true the value grows by
exactly `step_size` — and is exactly `0` after any `_increment` with
containment false, regardless of how much was accumulated before; at
`reset` it is initialized to `0`. -/
theorem DubinsRejoinTime.accumulate_and_hard_reset (s : DubinsRejoinTime)
    (step_size : ℚ) (b : Bool) :
    (s.increment step_size true).rejoin_time = s.rejoin_time + step_size ∧
    (s.increment step_size false).rejoin_time = 0 ∧
    (DubinsRejoinTime.reset b).rejoin_time = 0 :=
  ⟨rfl, rfl, rfl⟩

/-- C4 counterexample: success and failure are not mutually exclusive in
the code.  With timeout 500 and max goal distance 50000, a step at elapsed
time 501 with the deputy inside the docking region (distance 1) produces a
status record with `success = true` and `failure = 'timeout'`
simultaneously. -/
theorem DockingConstraintProcessor.success_and_failure_together :
    (DockingConstraintProcessor.check_constraints 500 50000 501 1 true).success
      = true ∧
    (DockingConstraintProcessor.check_constraints 500 50000 501 1 true).failure
      = some .timeout := by
  decide

/-- C4 (amended): `check_constraints` evaluates success and failure from
the same status mapping in the same step, but independently — success is
exactly the containment predicate and failure exactly the threshold
chain, with no override of one by the other — so both can be set in the
same step's status record. -/
theorem DockingConstraintProcessor.check_constraints_independent
    (timeout max_goal_distance time_elapsed dock_distance : ℚ)
    (in_docking : Bool) :
    (DockingConstraintProcessor.check_constraints timeout max_goal_distance
      time_elapsed dock_distance in_docking).success = in_docking ∧
    ((DockingConstraintProcessor.check_constraints timeout max_goal_distance
      time_elapsed dock_distance in_docking).failure = none ↔
      ¬ time_elapsed > timeout ∧ ¬ dock_distance ≥ max_goal_distance) := by
  refine ⟨rfl, ?_⟩
  unfold DockingConstraintProcessor.check_constraints
  split_ifs <;> simp_all

/-- Witness for C4: at timeout 500, elapsed time 501, distance 1,
containment true, the amended theorem yields a record with success true
and a non-`False` failure code. -/
theorem DockingConstraintProcessor.check_constraints_independent_witness :
    (DockingConstraintProcessor.check_constraints 500 50000 501 1 true).success
      = true ∧
    (DockingConstraintProcessor.check_constraints 500 50000 501 1 true).failure
      ≠ none := by
  have h := DockingConstraintProcessor.check_constraints_independent
    500 50000 501 1 true
  exact ⟨h.1, fun hn => absurd (h.2.mp hn).1 (by norm_num)⟩

/-- C3 counterexample: the distance-delta step value does not always equal
`(distance_t - distance_prev) * weight`.  With weight 1, previous tracked
distance 0, new distance 5 and rejoin status true for the step, the step
reward is `0`, not `(5 - 0) * 1`. -/
theorem RejoinDistanceChangeRewardProcessor.step_not_delta_when_in_rejoin :
    RejoinDistanceChangeRewardProcessor.process
      (RejoinDistanceChangeRewardProcessor.increment ⟨1, 0, 0, false⟩ 5 true)
      ≠ (5 - 0) * 1 := by
  norm_num [RejoinDistanceChangeRewardProcessor.increment,
    RejoinDistanceChangeRewardProcessor.process]

/-- C3 (amended): for any two consecutive steps the
`RejoinDistanceChangeRewardProcessor` step value equals
`(distance_t - distance_prev) * weight` exactly, including sign, when the
step's rejoin status is false, and is `0` when the rejoin status is true;
the docking reward processor's distance-change component grows by
`(distance_t - distance_prev) * weight` unconditionally. -/
theorem RejoinDistanceChangeRewardProcessor.step_value_delta
    (s : RejoinDistanceChangeRewardProcessor) (dist : ℚ)
    (status_in_rejoin : Bool) :
    ((s.increment dist status_in_rejoin).process =
      if status_in_rejoin then 0 else (dist - s.cur_distance) * s.reward) ∧
    (∀ (cfg : DockingRewardConfig) (d : DockingRewardProcessor)
      (input : DockingStepInput),
      (DockingRewardProcessor.gen_reward cfg d input).2.component_distance_change
        - d.component_distance_change =
        (input.cur_distance - d.prev_distance) * cfg.dist_change) := by
  constructor
  · cases status_in_rejoin <;>
      simp [RejoinDistanceChangeRewardProcessor.increment,
        RejoinDistanceChangeRewardProcessor.process]
  · intro cfg d input
    simp [DockingRewardProcessor.gen_reward]

/-- C1: on every step in which the tracked region is exited (previous-step
containment true, current containment false), `RejoinRewardProcessor`'s
step reward is the negative of its accumulated running total at that
point, so after the pipeline adds the step reward the running total is
exactly `0`; and the refund flag `left_rejoin` is set exactly on exit
transitions, so the refund fires only there and once per exit.  (The
pipeline's addition of the step reward into the running total is modelled
from the spec, the base class being outside `src/`.) -/
theorem RejoinRewardProcessor.refund_zeroes_total (s : RejoinRewardProcessor)
    (step_size : ℚ) (in_rejoin in_rejoin_prev : Bool) :
    (in_rejoin_prev = true → in_rejoin = false →
      (s.pipelineStep step_size in_rejoin in_rejoin_prev).1 = -s.total_value ∧
      (s.pipelineStep step_size in_rejoin in_rejoin_prev).2.total_value = 0) ∧
    (s.increment step_size in_rejoin in_rejoin_prev).left_rejoin =
      (in_rejoin_prev && !in_rejoin) := by
  cases in_rejoin <;> cases in_rejoin_prev <;>
    simp [RejoinRewardProcessor.pipelineStep,
      RejoinRewardProcessor.increment, RejoinRewardProcessor.process]

/-- Witness for C1: with weight 2 and accumulated total 7, an exit step
(previous containment true, current false) returns step reward `-7` and
leaves the running total at `0`. -/
theorem RejoinRewardProcessor.refund_zeroes_total_witness :
    (RejoinRewardProcessor.pipelineStep ⟨2, 0, false, false, 7⟩ 1 false true).1
      = -7 ∧
    (RejoinRewardProcessor.pipelineStep ⟨2, 0, false, false, 7⟩
      1 false true).2.total_value = 0 := by
  have h := (RejoinRewardProcessor.refund_zeroes_total
    ⟨2, 0, false, false, 7⟩ 1 false true).1 rfl rfl
  exact ⟨h.1, h.2⟩

/-- C5 counterexample: the claimed "if and only if" fails at weight `0`.
With weight 0, step size 1 and both containment statuses false, the step
reward is `0`, which equals `weight * step_size = 0 * 1`, yet the
premise "previous and current containment both true" is false. -/
theorem RejoinRewardProcessor.dwell_iff_fails_at_zero_weight :
    (RejoinRewardProcessor.pipelineStep ⟨0, 0, false, false, 0⟩
      1 false false).1 = 0 * 1 ∧
    ¬ (false = true ∧ false = true) := by
  constructor
  · norm_num [RejoinRewardProcessor.pipelineStep,
      RejoinRewardProcessor.increment, RejoinRewardProcessor.process]
  · simp

/-- C5 (amended): while the agent was in the region for the entire step
(previous-step and current containment status both true) the step reward
equals `weight * step_size`, and when containment became true only during
this step (previous false, current true) the step reward is `0` — both
unconditionally; and the step reward equals `weight * step_size` if and
only if both containment statuses are true, provided
`weight * step_size ≠ 0` and the accumulated total is not the degenerate
value `-(weight * step_size)` (whose refund would coincide numerically
with the dwell reward). -/
theorem RejoinRewardProcessor.dwell_reward_iff (s : RejoinRewardProcessor)
    (step_size : ℚ) (in_rejoin in_rejoin_prev : Bool) :
    (in_rejoin_prev = true → in_rejoin = true →
      (s.pipelineStep step_size in_rejoin in_rejoin_prev).1 =
        s.reward * step_size) ∧
    (in_rejoin_prev = false → in_rejoin = true →
      (s.pipelineStep step_size in_rejoin in_rejoin_prev).1 = 0) ∧
    (s.reward * step_size ≠ 0 →
      s.total_value ≠ -(s.reward * step_size) →
      ((s.pipelineStep step_size in_rejoin in_rejoin_prev).1 =
          s.reward * step_size ↔
        in_rejoin_prev = true ∧ in_rejoin = true)) := by
  cases in_rejoin <;> cases in_rejoin_prev <;>
    simp [RejoinRewardProcessor.pipelineStep,
      RejoinRewardProcessor.increment, RejoinRewardProcessor.process]
  · exact fun hw hs _ => ⟨hw, hs⟩
  · intro hw hs ht heq
    exact ht (by linarith)
  · exact fun hw hs _ => ⟨hw, hs⟩

/-- Witness for C5: with weight 1, step size 1 and accumulated total 0, a
step with both containment statuses true returns step reward `1 * 1`,
obtained through the biconditional after discharging its provisos. -/
theorem RejoinRewardProcessor.dwell_reward_iff_witness :
    (RejoinRewardProcessor.pipelineStep ⟨1, 0, false, false, 0⟩ 1 true true).1
      = 1 * 1 := by
  have h := RejoinRewardProcessor.dwell_reward_iff ⟨1, 0, false, false, 0⟩
    1 true true
  exact (h.2.2 (by norm_num) (by norm_num)).mpr ⟨rfl, rfl⟩

/-- Helper for C6: once the first-time flag or its applied latch is set,
every remaining step of the episode emits step reward `0`. -/
theorem RejoinFirstTimeRewardProcessor.run_zero_of_latched
    (trace : List Bool) :
    ∀ s : RejoinFirstTimeRewardProcessor,
      (s.rejoin_first_time || s.rejoin_first_time_applied) = true →
      s.run trace = List.replicate trace.length 0 := by
  induction trace with
  | nil => intro s _; rfl
  | cons c rest ih =>
    intro s hs
    rcases Bool.or_eq_true_iff.mp hs with hft | hap
    · simp [RejoinFirstTimeRewardProcessor.run,
        RejoinFirstTimeRewardProcessor.increment,
        RejoinFirstTimeRewardProcessor.process, hft]
      rw [List.replicate_succ]
      congr 1
      apply ih
      simp
    · cases hft : s.rejoin_first_time
      · simp [RejoinFirstTimeRewardProcessor.run,
          RejoinFirstTimeRewardProcessor.increment,
          RejoinFirstTimeRewardProcessor.process, hft, hap]
        rw [List.replicate_succ]
        congr 1
        apply ih
        simp [hap]
      · simp [RejoinFirstTimeRewardProcessor.run,
          RejoinFirstTimeRewardProcessor.increment,
          RejoinFirstTimeRewardProcessor.process, hft, hap]
        rw [List.replicate_succ]
        congr 1
        apply ih
        simp

/-- C6: over every episode (a reset followed by any containment-status
trace, including traces that toggle true→false→true repeatedly),
`RejoinFirstTimeRewardProcessor` emits its configured bonus exactly on the
first step whose containment status is true — hence on at most one step —
and `0` on every other step. -/
theorem RejoinFirstTimeRewardProcessor.run_eq_firstTimeBonusSpec
    (w : ℚ) (b : Bool) (trace : List Bool) :
    (RejoinFirstTimeRewardProcessor.reset w b).run trace =
      firstTimeBonusSpec w trace := by
  induction trace with
  | nil => rfl
  | cons c rest ih =>
    cases c
    · simpa [RejoinFirstTimeRewardProcessor.run,
        RejoinFirstTimeRewardProcessor.increment,
        RejoinFirstTimeRewardProcessor.process,
        RejoinFirstTimeRewardProcessor.reset, firstTimeBonusSpec] using ih
    · simp [RejoinFirstTimeRewardProcessor.run,
        RejoinFirstTimeRewardProcessor.increment,
        RejoinFirstTimeRewardProcessor.process,
        RejoinFirstTimeRewardProcessor.reset, firstTimeBonusSpec]
      apply RejoinFirstTimeRewardProcessor.run_zero_of_latched
      simp

/-- Helper for C10: one `gen_reward` call preserves the invariant that the
running total equals the sum of the per-component running totals. -/
theorem DockingRewardProcessor.run_total_eq_components
    (cfg : DockingRewardConfig) (inputs : List DockingStepInput) :
    ∀ s : DockingRewardProcessor,
      s.total_reward = s.component_time + s.component_distance_change +
        s.component_success + s.component_failure →
      (DockingRewardProcessor.run cfg s inputs).total_reward =
        (DockingRewardProcessor.run cfg s inputs).component_time +
        (DockingRewardProcessor.run cfg s inputs).component_distance_change +
        (DockingRewardProcessor.run cfg s inputs).component_success +
        (DockingRewardProcessor.run cfg s inputs).component_failure := by
  induction inputs with
  | nil => intro s h; exact h
  | cons input rest ih =>
    intro s h
    apply ih
    simp only [DockingRewardProcessor.gen_reward]
    rw [h]
    ring

/-- C10: after a reset and any sequence of `gen_reward` calls, the running
`total_reward` of `DockingRewardProcessor` equals the sum of the four
per-component running totals (time, distance_change, success, failure);
moreover each `gen_reward` call returns exactly the `step_reward` it
records, and that step reward equals the sum of the step's component
contributions (the amounts added to each component total). -/
theorem DockingRewardProcessor.totals_invariant (cfg : DockingRewardConfig)
    (initial_distance : ℚ) (inputs : List DockingStepInput) :
    ((DockingRewardProcessor.run cfg
        (DockingRewardProcessor.reset initial_distance) inputs).total_reward =
      (DockingRewardProcessor.run cfg
        (DockingRewardProcessor.reset initial_distance) inputs).component_time
      + (DockingRewardProcessor.run cfg
        (DockingRewardProcessor.reset initial_distance)
        inputs).component_distance_change
      + (DockingRewardProcessor.run cfg
        (DockingRewardProcessor.reset initial_distance)
        inputs).component_success
      + (DockingRewardProcessor.run cfg
        (DockingRewardProcessor.reset initial_distance)
        inputs).component_failure) ∧
    (∀ (s : DockingRewardProcessor) (input : DockingStepInput),
      (DockingRewardProcessor.gen_reward cfg s input).1 =
        (DockingRewardProcessor.gen_reward cfg s input).2.step_reward ∧
      (DockingRewardProcessor.gen_reward cfg s input).2.step_reward =
        ((DockingRewardProcessor.gen_reward cfg s input).2.component_time
          - s.component_time)
        + ((DockingRewardProcessor.gen_reward cfg s
            input).2.component_distance_change
          - s.component_distance_change)
        + ((DockingRewardProcessor.gen_reward cfg s
            input).2.component_success - s.component_success)
        + ((DockingRewardProcessor.gen_reward cfg s
            input).2.component_failure - s.component_failure)) := by
  constructor
  · apply DockingRewardProcessor.run_total_eq_components
    simp [DockingRewardProcessor.reset]
  · intro s input
    constructor
    · rfl
    · simp only [DockingRewardProcessor.gen_reward]
      ring

/-- C8: for every nonzero input vector, the magnitude-normalized encoding
round-trips exactly over exact arithmetic: multiplying the magnitude
component of `vec2magnorm` by each unit-vector component it produces
reproduces the original vector. -/
theorem vec2magnorm_roundtrip (v : Fin 2 → ℝ) (hv : v ≠ 0) :
    ![vec2magnorm v 0 * vec2magnorm v 1,
      vec2magnorm v 0 * vec2magnorm v 2] = v := by
  have hs : 0 < v 0 ^ 2 + v 1 ^ 2 := by
    rcases Function.ne_iff.mp hv with ⟨i, hi⟩
    fin_cases i
    · exact add_pos_of_pos_of_nonneg (pow_two_pos_of_ne_zero hi)
        (sq_nonneg _)
    · exact add_pos_of_nonneg_of_pos (sq_nonneg _)
        (pow_two_pos_of_ne_zero hi)
  have hn : vecNorm v ≠ 0 := ne_of_gt (Real.sqrt_pos.mpr hs)
  funext i
  fin_cases i <;>
    simp only [vec2magnorm, Matrix.cons_val_zero, Matrix.cons_val_one,
      Matrix.head_cons, Matrix.cons_val_two, Matrix.tail_cons] <;>
    field_simp

/-- Witness for C8: the nonzero vector `![3, 4]` round-trips through
`vec2magnorm`. -/
theorem vec2magnorm_roundtrip_witness :
    ![vec2magnorm ![3, 4] 0 * vec2magnorm ![3, 4] 1,
      vec2magnorm ![3, 4] 0 * vec2magnorm ![3, 4] 2] = ![(3 : ℝ), 4] := by
  have h := vec2magnorm_roundtrip ![3, 4] (by
    intro h0
    have h1 := congrFun h0 0
    norm_num at h1)
  exact h

/-- C9 counterexample: the claimed bound does not hold for every
environment-object state.  In `magnorm` mode with all objects at the
origin the relative vectors are zero, so the source's `vec2magnorm`
divides by a zero magnitude and the observation's components are NaN —
`np.clip(NaN, -1, 1)` is NaN, which does not lie in `[-1, 1]`; the
embedding records that evaluation as the error path `none`, with no
in-bounds observation value. -/
theorem DubinsObservationProcessor.process_magnorm_zero_vector :
    DubinsObservationProcessor.process .magnorm id 0 0 0 0 0 = none := by
  simp [DubinsObservationProcessor.process, encodeVec, vecNorm]

/-- C9 (amended): whenever `DubinsObservationProcessor._process` completes
without hitting the zero-vector division (always in `rect` mode, and in
`magnorm` mode whenever every rotated vector is nonzero), every component
of the observation it returns — each raw component divided by its fixed
per-component normalization constant and clipped — lies in the closed
interval `[-1, 1]`, for every object state and reference rotation. -/
theorem DubinsObservationProcessor.process_bounded (mode : DubinsObsMode)
    (reference_rotation : (Fin 2 → ℝ) → (Fin 2 → ℝ))
    (lead_pos wingman_pos rejoin_region_pos wingman_vel lead_vel :
      Fin 2 → ℝ) (obs : List ℝ) (x : ℝ)
    (hobs : DubinsObservationProcessor.process mode reference_rotation
      lead_pos wingman_pos rejoin_region_pos wingman_vel lead_vel = some obs)
    (hx : x ∈ obs) :
    -1 ≤ x ∧ x ≤ 1 := by
  simp only [DubinsObservationProcessor.process, Option.bind_eq_bind,
    Option.bind_eq_some, Option.pure_def, Option.some.injEq] at hobs
  obtain ⟨a, -, b, -, c, -, d, -, rfl⟩ := hobs
  simp only [List.mem_map] at hx
  obtain ⟨p, -, rfl⟩ := hx
  exact ⟨le_min (le_max_right _ _) (by norm_num), min_le_right _ _⟩

/-- Witness for C9: in `rect` mode the all-zero object state with the
identity reference rotation produces the observation `some [0, ..., 0]`;
its component `0` lies in `[-1, 1]`. -/
theorem DubinsObservationProcessor.process_bounded_witness :
    DubinsObservationProcessor.process .rect id 0 0 0 0 0 =
      some [0, 0, 0, 0, 0, 0, 0, 0] ∧
    (0 : ℝ) ∈ [(0 : ℝ), 0, 0, 0, 0, 0, 0, 0] ∧
    (-1 ≤ (0 : ℝ) ∧ (0 : ℝ) ≤ 1) := by
  have hobs : DubinsObservationProcessor.process .rect id 0 0 0 0 0 =
      some [0, 0, 0, 0, 0, 0, 0, 0] := by
    norm_num [DubinsObservationProcessor.process, encodeVec, obs_norm_const]
  exact ⟨hobs, by norm_num,
    DubinsObservationProcessor.process_bounded .rect id 0 0 0 0 0
      [0, 0, 0, 0, 0, 0, 0, 0] 0 hobs (by norm_num)⟩
